import Mathlib

/-!
# Verification of the brainvoyagertools text-format engine

A shallow embedding of the plain-text readers/writers for the BrainVoyager
input formats (`ctr`, `sdm`, `mdm`, `prt`), translated from the Python
sources `ctr/__init__.py`, `mdm/__init__.py`, `src/brainvoyagertools/sdm.py`
and `src/brainvoyagertools/prt.py` of fladd/brainvoyagertools.

Modelling conventions:
* Python strings are Lean `String`s; all operations on them are re-implemented
  structurally over `List Char` so that every definition is executable by the
  kernel (`decide`/`rfl`).
* Python `int` is Lean `Int`.  The `float` fallback of the condition-row
  parser (`int_or_float`) is outside the scope of this embedding: fractional
  tokens are treated as a fatal parse error, exactly as a non-numeric token
  would be in Python, and every input considered below uses integer tokens
  only.  Random colour generation is likewise out of scope (all modelled
  constructions supply explicit colours, as the loaders always do).
* Python exceptions are modelled with `Except String`/`Option String`; the
  error string names the Python exception type (or carries the formatted
  message of an explicit `raise ValueError`).  Mutating methods that can
  raise are modelled as `State → State × Option String`, returning the state
  as it stands when the exception is raised (mutations that Python performed
  before the raise are kept, ones after it are not).
* Header dictionaries (`collections.OrderedDict`) are association lists;
  assignment to an existing key updates the entry in place, a new key is
  appended.  Reading a key that is absent from the schema (Python `KeyError`)
  is not modelled: every header manipulated below carries its full schema,
  which the constructors guarantee and no modelled operation removes.
* Python's `sorted` is stable; `List.insertionSort` is also stable, and two
  stable sorts with the same comparator agree on every input, so
  `insertionSort` is an exact model of `sorted(..., key=...)` (and of
  `np.sort` on integer columns, where sorted output is unique).
-/

set_option maxHeartbeats 2000000
set_option maxRecDepth 4000

/-! ## Python string primitives (structural re-implementations) -/

/-- Characters stripped by Python `str.strip()` with no argument. -/
def isPySpace (c : Char) : Bool :=
  c == ' ' || c == '\t' || c == '\n' || c == '\r' || c == '\x0b' || c == '\x0c'

/-- Python `s.strip()`. -/
def pyStrip (s : String) : String :=
  String.mk (((s.toList.dropWhile isPySpace).reverse.dropWhile isPySpace).reverse)

/-- Python `s.strip(chars)`: remove any of the given characters from both ends. -/
def pyStripChars (cs : List Char) (s : String) : String :=
  String.mk (((s.toList.dropWhile (cs.contains ·)).reverse.dropWhile (cs.contains ·)).reverse)

/-- Python `s.ljust(w)` (space fill). -/
def pyLjust (w : Nat) (s : String) : String :=
  s ++ String.mk (List.replicate (w - s.toList.length) ' ')

/-- Python `s.rjust(w)` (space fill). -/
def pyRjust (w : Nat) (s : String) : String :=
  String.mk (List.replicate (w - s.toList.length) ' ') ++ s

/-- Python `s[:n]` for non-negative `n`. -/
def pyTakeStr (s : String) (n : Nat) : String := String.mk (s.toList.take n)

/-- Python `s[n:]` for non-negative `n`. -/
def pyDropStr (s : String) (n : Nat) : String := String.mk (s.toList.drop n)

/-- Python `s.startswith(p)`. -/
def pyStarts (s p : String) : Bool := p.toList.isPrefixOf s.toList

/-- Python `s.replace("\t", "  ")` (the only replacement the sources perform). -/
def pyExpandTabs (s : String) : String :=
  String.mk (s.toList.flatMap (fun c => if c == '\t' then [' ', ' '] else [c]))

/-- Digit-string to number; `none` unless the character list is a nonempty
run of decimal digits. -/
def digitsToNat (cs : List Char) : Option Nat :=
  if cs ≠ [] ∧ cs.all Char.isDigit then
    some (cs.foldl (fun n c => n * 10 + (c.toNat - 48)) 0)
  else none

/-- Python `int(s)`: surrounding whitespace tolerated, optional sign,
then decimal digits; anything else raises `ValueError` (here: `none`). -/
def pyInt (s : String) : Option Int :=
  match (pyStrip s).toList with
  | '+' :: r => (digitsToNat r).map (fun n => (n : Int))
  | '-' :: r => (digitsToNat r).map (fun n => -(n : Int))
  | r => (digitsToNat r).map (fun n => (n : Int))

/-- Splitting worker for `pySplit`: `fuel` bounds the recursion (callers pass
the input length plus one, which always suffices since every step consumes at
least one character). -/
def splitSeqAux (sep : List Char) : Nat → List Char → List Char → List (List Char)
  | 0, acc, rest => [acc.reverse ++ rest]
  | fuel + 1, acc, cs =>
    match cs with
    | [] => [acc.reverse]
    | c :: rest =>
      if sep.isPrefixOf cs then
        acc.reverse :: splitSeqAux sep fuel [] (cs.drop sep.length)
      else
        splitSeqAux sep fuel (c :: acc) rest

/-- Python `s.split(sep)` for a nonempty separator: keeps empty fields,
scans left to right. -/
def pySplit (s : String) (sep : String) : List String :=
  if sep.toList = [] then [s]
  else (splitSeqAux sep.toList (s.toList.length + 1) [] s.toList).map String.mk

/-- Python `s.split(":", 1)`: at most one split, at the first colon. -/
def pySplitColon1 (s : String) : List String :=
  match pySplit s ":" with
  | [] => []
  | [x] => [x]
  | x :: rest => [x, String.intercalate ":" rest]

/-- Python `str.join`: `String.intercalate` matches it exactly. -/
def pyJoin (sep : String) (xs : List String) : String := String.intercalate sep xs

/-- Python `f.readlines()` of a file whose contents are `s`: split at
newlines, each line keeping its terminator, no empty final line. -/
def readLinesAux : List String → List String
  | [] => []
  | [last] => if last = "" then [] else [last]
  | p :: rest => (p ++ "\n") :: readLinesAux rest

def readLines (s : String) : List String := readLinesAux (pySplit s "\n")

/-- Python list indexing `l[i]`, including the negative-index wrap-around;
`none` is an `IndexError`. -/
def pyIndex {α : Type} (l : List α) (i : Int) : Option α :=
  if 0 ≤ i then l.get? i.toNat
  else if 0 ≤ (l.length : Int) + i then l.get? ((l.length : Int) + i).toNat
  else none

/-- Python slice `l[:i]`, including negative `i` (drop from the end). -/
def pySliceTo {α : Type} (l : List α) (i : Int) : List α :=
  if 0 ≤ i then l.take i.toNat else l.take (l.length - (-i).toNat)

/-- Python `list.insert(i, a)`: negative indices clamp to the front,
overlong ones to the back. -/
def pyInsertAt {α : Type} (l : List α) (i : Int) (a : α) : List α :=
  let j : Nat := if i < 0 then ((l.length : Int) + i).toNat else min i.toNat l.length
  l.take j ++ a :: l.drop j

/-- `itertools.groupby` first components: collapse consecutive duplicates. -/
def collapseDupAux {α : Type} [BEq α] (prev : α) : List α → List α
  | [] => []
  | a :: rest =>
    if a == prev then collapseDupAux prev rest else a :: collapseDupAux a rest

def collapseDup {α : Type} [BEq α] : List α → List α
  | [] => []
  | a :: rest => a :: collapseDupAux a rest

/-! ## Header values

Header values are `int`, short integer lists (colour triples and the like),
or strings — exactly the three shapes the loaders produce (§ value typing). -/

inductive PyVal where
  | int (i : Int)
  | list (l : List Int)
  | str (s : String)
deriving DecidableEq, Repr

/-- `OrderedDict.__setitem__` over an association list: replace the first
entry with the given key in place (keys are unique in an `OrderedDict`, so
"first" is "the" entry), or append a new entry at the end. -/
def assocSet {β : Type} : List (String × β) → String → β → List (String × β)
  | [], k, v => [(k, v)]
  | kv :: t, k, v => if kv.1 == k then (k, v) :: t else kv :: assocSet t k v

/-- `OrderedDict.__getitem__` with a default for the unmodelled `KeyError`
case (see the header note). -/
def assocGet {β : Type} (dflt : β) : List (String × β) → String → β
  | [], _ => dflt
  | kv :: t, k => if kv.1 == k then kv.2 else assocGet dflt t k

/-- An ordered `key → value` header (`collections.OrderedDict`). -/
abbrev Header := List (String × PyVal)

def headerSet (h : Header) (k : String) (v : PyVal) : Header := assocSet h k v

def headerGet (h : Header) (k : String) : PyVal := assocGet (.str "") h k

/-- Read a header value that the code uses as an `int`
(`none` models the `TypeError`/`KeyError` Python would raise). -/
def headerGetInt (h : Header) (k : String) : Option Int :=
  match headerGet h k with
  | PyVal.int i => some i
  | _ => none

/-- Integer-only header (ctr and sdm headers hold nothing but ints). -/
abbrev IntHeader := List (String × Int)

def iheaderSet (h : IntHeader) (k : String) (v : Int) : IntHeader := assocSet h k v

def iheaderGet (h : IntHeader) (k : String) : Int := assocGet 0 h k

/-- Render a header value the way `"{0}".format(value)` does (a list value
is unpacked as `r, g, b` and rendered space-separated). -/
def pyValRender : PyVal → String
  | .int i => toString i
  | .str s => s
  | .list l => pyJoin " " (l.map toString)

/-! ## Shared numpy fragments -/

/-- `np.array(rows).shape[1]` on a list of rows: the common row length if the
rows are rectangular and there is at least one row, otherwise `none`
(numpy builds a 1-D (or empty) array there and `shape[1]` raises
`IndexError`). -/
def rectWidth : List (List Int) → Option Nat
  | [] => none
  | r :: rs => if rs.all (fun x => x.length == r.length) then some r.length else none

/-- Column `x` of `np.array(rows)` (`rows[:,x]`); `none` is the
`IndexError` numpy raises on a ragged/empty array or an out-of-range column. -/
def npColumn (rows : List (List Int)) (x : Nat) : Option (List Int) :=
  match rectWidth rows with
  | some w => if x < w then some (rows.map (fun r => r.getD x 0)) else none
  | none => none

/-- `np.array([x.data]).T` for the first record of the `data` accessors:
a single column. -/
def colOf (r : List Int) : List (List Int) := r.map (fun v => [v])

/-- `np.append(m, np.array([r]).T, axis=1)`: append one column on the right;
`none` is the `ValueError` numpy raises when the row counts differ. -/
def hstackCol (m : List (List Int)) (r : List Int) : Option (List (List Int)) :=
  if r.length = m.length then some (m.zipWith (fun row v => row ++ [v]) r) else none

/-- The `data` accessor shared (verbatim) by `ContrastsDefinition.data` and
`sdm.DesignMatrix.data`: start from the first record as a column, then
append each further record as a column.  On zero records Python raises
`UnboundLocalError` (`rtn` is never assigned): `none`. -/
def npColumnStack : List (List Int) → Option (List (List Int))
  | [] => none
  | r :: rs => rs.foldl (fun acc x => acc.bind (fun m => hstackCol m x)) (some (colOf r))

/-! ## ctr — ContrastsDefinition (ctr/__init__.py) -/

structure Contrast where
  name : String
  data : List Int
deriving DecidableEq, Repr

structure CtrState where
  header : IntHeader
  contrasts : List Contrast
deriving DecidableEq, Repr

/-- `ContrastsDefinition.clear`. -/
def ctrClear : CtrState :=
  ⟨[("FileVersion", 1), ("NrOfContrasts", 0), ("NrOfValues", 0)], []⟩

/-- `ContrastsDefinition.add_contrast`.  Note, exactly as in the source: the
contrast is never appended to `self._contrasts`; only the header counter and
(for the first contrast) `NrOfValues` are touched. -/
def ctrAddContrast (s : CtrState) (c : Contrast) : CtrState × Option String :=
  if iheaderGet s.header "NrOfContrasts" = 0 then
    let h1 := iheaderSet s.header "NrOfValues" (c.data.length : Int)
    ({ s with header := iheaderSet h1 "NrOfContrasts" (iheaderGet h1 "NrOfContrasts" + 1) }, none)
  else if iheaderGet s.header "NrOfValues" ≠ (c.data.length : Int) then
    (s, some ("Contrast has " ++ toString c.data.length ++
      " data points, but contrasts definition has " ++
      toString (iheaderGet s.header "NrOfValues") ++ "!"))
  else
    let h2 := iheaderSet s.header "NrOfContrasts" (iheaderGet s.header "NrOfContrasts" + 1)
    ({ s with header := h2 }, none)

/-- `ContrastsDefinition.data`. -/
def ctrData (s : CtrState) : Option (List (List Int)) :=
  npColumnStack (s.contrasts.map (fun c => c.data))

/-- `ContrastsDefinition._format_header` (22-column keys, newline between
entries). -/
def ctrFormatHeader (s : CtrState) : String :=
  pyJoin "\n" (s.header.map (fun kv => pyLjust 22 (kv.1 ++ ":") ++ toString kv.2))

/-- `ContrastsDefinition._format_names`. -/
def ctrFormatNames (s : CtrState) : String :=
  "\"" ++ pyJoin "\" \"" (s.contrasts.map (fun c => c.name)) ++ "\""

/-- One row of `ContrastsDefinition._format_data`. -/
def ctrFormatRow (row : List Int) : String :=
  pyJoin " " (row.map (fun y => pyRjust 3 (toString y)))

/-- `ContrastsDefinition._format_data` (fails, like the `data` accessor it
reads, when there are no contrasts). -/
def ctrFormatData (s : CtrState) : Option String :=
  (ctrData s).map (fun m => pyJoin "\n" (m.map ctrFormatRow))

/-- `ContrastsDefinition.save`: the text written to the file (extension
normalisation is I/O-boundary and not modelled).  `none` when formatting the
body raises. -/
def ctrSave (s : CtrState) : Option String :=
  (ctrFormatData s).map (fun fd =>
    "\n" ++ ctrFormatHeader s ++ "\n" ++ "\n" ++ ctrFormatNames s ++ "\n" ++ fd)

/-- One header line of `ContrastsDefinition.load`:
`self._header[line[:16].strip(": ")] = int(line[16:].strip())`. -/
def parseCtrHeaderLine (h : IntHeader) (line : String) : Except String IntHeader :=
  if pyStrip line = "" then .ok h
  else
    match pyInt (pyDropStr line 16) with
    | some v => .ok (iheaderSet h (pyStripChars [':', ' '] (pyTakeStr line 16)) v)
    | none => .error "ValueError"

/-- One data row of `ContrastsDefinition.load`: slice the line into 4-column
cells, skipping cells that start with a bare line terminator. -/
def ctrParseRow (line : String) : Except String (List Int) :=
  let cs := line.toList
  let idxs := (List.range ((cs.length + 3) / 4)).map (fun j => j * 4)
  let keep := idxs.filter (fun i =>
    match cs.get? i with
    | some c => !(c == '\r' || c == '\n')
    | none => false)
  keep.mapM (fun i =>
    match pyInt (String.mk ((cs.drop i).take 4)) with
    | some v => Except.ok v
    | none => Except.error "ValueError")

/-- `ContrastsDefinition.load` applied to file contents: clears, finds the
first quoted line, re-reads the header above the blank separator, parses the
fixed-width grid below, and rebuilds one contrast per name from the grid
columns. -/
def ctrLoad (file : String) : Except String CtrState := do
  let s := ctrClear
  let lines := readLines file
  if lines.isEmpty then .error "NameError"
  else
    let counter := (lines.findIdx? (fun l => pyStarts l "\"")).getD (lines.length - 1)
    let line := (pyIndex lines (counter : Int)).getD ""
    let names := pySplit (pyStripChars ['"'] (pyStrip line)) "\" \""
    let header ← (pySliceTo lines ((counter : Int) - 1)).foldlM parseCtrHeaderLine s.header
    let rows ← (lines.drop (counter + 1)).mapM ctrParseRow
    let contrasts ← (List.range names.length).mapM (fun x =>
      match npColumn rows x with
      | some col => Except.ok { name := names.getD x "", data := col }
      | none => Except.error "IndexError")
    .ok { header := header, contrasts := contrasts }

/-! ## prt — StimulationProtocol (src/brainvoyagertools/prt.py) -/

structure PrtCondition where
  name : String
  data : List (List Int)
  colour : List Int
deriving DecidableEq, Repr

structure PrtState where
  header : Header
  conditions : List PrtCondition
deriving DecidableEq, Repr

/-- `StimulationProtocol.clear` (also the state of a freshly constructed
protocol with the default experiment name and time units). -/
def prtClear : PrtState :=
  ⟨[("FileVersion", .int 2), ("ResolutionOfTime", .str "Volumes"),
    ("Experiment", .str "untitled"), ("BackgroundColor", .list [0, 0, 0]),
    ("TextColor", .list [255, 255, 255]), ("TimeCourseColor", .list [255, 255, 255]),
    ("TimeCourseThick", .int 3), ("ReferenceFuncColor", .list [0, 0, 80]),
    ("ReferenceFuncThick", .int 3), ("ParametricWeights", .int 0),
    ("NrOfConditions", .int 0)], []⟩

/-- `np.append(rows, np.array([n * [1]]).T, axis=1)`: a unit column on the
right of every row. -/
def padOnes (rows : List (List Int)) : List (List Int) := rows.map (fun r => r ++ [1])

/-- The retrofit loop of `add_condition`: give every existing condition whose
data has fewer than 3 columns a unit third column.  Mirrors the in-place
Python loop: on a ragged condition, `shape[1]` raises `IndexError` and the
conditions already visited keep their new column. -/
def retrofitConditions : List PrtCondition → List PrtCondition × Option String
  | [] => ([], none)
  | c :: rest =>
    match rectWidth c.data with
    | none => (c :: rest, some "IndexError")
    | some w =>
      let c2 := if w < 3 then { c with data := padOnes c.data } else c
      let (rest2, e) := retrofitConditions rest
      (c2 :: rest2, e)

/-- `self._header["NrOfConditions"] += 1` after appending. -/
def prtFinishAdd (s : PrtState) (c : PrtCondition) : PrtState × Option String :=
  let s2 : PrtState := { s with conditions := s.conditions ++ [c] }
  match headerGetInt s2.header "NrOfConditions" with
  | some n => ({ s2 with header := headerSet s2.header "NrOfConditions" (.int (n + 1)) }, none)
  | none => (s2, some "TypeError")

/-- `StimulationProtocol.add_condition`. -/
def prtAddCondition (s : PrtState) (c : PrtCondition) : PrtState × Option String :=
  match rectWidth c.data with
  | none => (s, some "IndexError")
  | some w =>
    if w > 2 then
      let h2 := headerSet (headerSet s.header "FileVersion" (.int 3)) "ParametricWeights" (.int 1)
      let (conds2, e) := retrofitConditions s.conditions
      match e with
      | some err => ({ header := h2, conditions := conds2 }, some err)
      | none => prtFinishAdd { header := h2, conditions := conds2 } c
    else
      let c2 :=
        if headerGet s.header "FileVersion" = .int 3 ∧
           headerGet s.header "ParametricWeights" = .int 1
        then { c with data := padOnes c.data } else c
      prtFinishAdd s c2

/-- `StimulationProtocol.convert_to_msec` on one interval:
`intervall[0] = int((intervall[0] - 1) * tr); intervall[1] = int(intervall[1] * tr)`.
(Rows with fewer than two entries would raise `IndexError` in Python and do
not occur; they are returned unchanged here.) -/
def convRow (tr : Int) : List Int → List Int
  | a :: b :: rest => ((a - 1) * tr) :: (b * tr) :: rest
  | r => r

/-- `StimulationProtocol.convert_to_msec`. -/
def prtConvertToMsec (s : PrtState) (tr : Int) : PrtState :=
  if headerGet s.header "ResolutionOfTime" = .str "msec" then s
  else
    { header := headerSet s.header "ResolutionOfTime" (.str "msec"),
      conditions := s.conditions.map (fun c => { c with data := c.data.map (convRow tr) }) }

/-! ### prt derived views -/

/-- The flattened (unsorted) event list: one `(condition name, interval)`
pair per data row, in document order. -/
def prtEvents (s : PrtState) : List (String × List Int) :=
  (s.conditions.map (fun c => c.data.map (fun row => (c.name, row)))).flatten

/-- The sort key of `event_list`: `lambda x: x[1]`, the onset. -/
def evLE (a b : String × List Int) : Prop := a.2.getD 0 0 ≤ b.2.getD 0 0

instance : DecidableRel evLE := fun x y => Int.decLe (x.2.getD 0 0) (y.2.getD 0 0)

instance : IsTotal (String × List Int) evLE :=
  ⟨fun a b => Int.le_total (a.2.getD 0 0) (b.2.getD 0 0)⟩

instance : IsTrans (String × List Int) evLE :=
  ⟨fun _ _ _ hab hbc => Int.le_trans hab hbc⟩

/-- `StimulationProtocol.event_list`: the flattened events, stably sorted by
onset (`sorted` is stable, and so is `insertionSort`, so they agree). -/
def prtEventList (s : PrtState) : List (String × List Int) :=
  (prtEvents s).insertionSort evLE

/-- `self.time_units == "msec"`. -/
def prtIsMsec (s : PrtState) : Bool :=
  headerGet s.header "ResolutionOfTime" == PyVal.str "msec"

/-- `StimulationProtocol.event_onsets`. -/
def prtEventOnsets (s : PrtState) : List Int :=
  (prtEventList s).map (fun e => e.2.getD 0 0)

/-- `StimulationProtocol.event_durations`: `x[2] - x[1]` in msec mode,
`x[2] - x[1] + 1` otherwise. -/
def prtEventDurations (s : PrtState) : List Int :=
  if prtIsMsec s then
    (prtEventList s).map (fun e => e.2.getD 1 0 - e.2.getD 0 0)
  else
    (prtEventList s).map (fun e => e.2.getD 1 0 - e.2.getD 0 0 + 1)

/-- `StimulationProtocol.condition_durations`: per condition,
`data[:,1] - data[:,0]` in msec mode and `data[:,1] - data[:,0] + 1`
otherwise. -/
def prtConditionDurations (s : PrtState) : List (List Int) :=
  if prtIsMsec s then
    s.conditions.map (fun c => c.data.map (fun r => r.getD 1 0 - r.getD 0 0))
  else
    s.conditions.map (fun c => c.data.map (fun r => r.getD 1 0 - r.getD 0 0 + 1))

/-! ### prt condition combination (`Condition.__add__`) -/

/-- The columns of `np.sort(m, axis=0)`: every column sorted on its own. -/
def colsSorted (m : List (List Int)) : List (List Int) :=
  m.transpose.map (fun col => col.insertionSort (· ≤ ·))

/-- `np.sort(m, axis=0)` on a rectangular matrix: each column sorted
independently of the others (this is what numpy does with `axis=0`; it does
not keep rows together). -/
def npSortAxis0 (m : List (List Int)) : List (List Int) := (colsSorted m).transpose

/-- `Condition.__add__`: concatenated name, `np.sort(np.concatenate(...),
axis=0)` of the stacked data, component-wise colour sum clamped at 255. -/
def prtCondAdd (a b : PrtCondition) : PrtCondition :=
  { name := a.name ++ "+" ++ b.name,
    data := npSortAxis0 (a.data ++ b.data),
    colour := [min (a.colour.getD 0 0 + b.colour.getD 0 0) 255,
               min (a.colour.getD 1 0 + b.colour.getD 1 0) 255,
               min (a.colour.getD 2 0 + b.colour.getD 2 0) 255] }

/-- Modelled from the spec's words, for comparison only (claim C9): the
row-wise union of the stacked data sorted by onset, each row kept intact. -/
def specRowSortByOnset (rows : List (List Int)) : List (List Int) :=
  rows.insertionSort (fun r q => r.getD 0 0 ≤ q.getD 0 0)

/-! ### prt formatting (save) -/

/-- `StimulationProtocol._format_header`: 20-column keys; entry 9
(`ParametricWeights`) only when `FileVersion == 3`; a newline after every
entry but the last, and an extra blank line after entries 0, 1, 2, 8, 9. -/
def prtFormatHeader (s : PrtState) : String :=
  let n := s.header.length
  String.join (s.header.enum.map (fun ci =>
    if ci.1 ≠ 9 ∨ headerGet s.header "FileVersion" = .int 3 then
      pyLjust 20 (ci.2.1 ++ ":") ++ pyValRender ci.2.2 ++
      (if ci.1 < n - 1 then "\n" else "") ++
      (if ci.1 = 0 ∨ ci.1 = 1 ∨ ci.1 = 2 ∨ ci.1 = 8 ∨ ci.1 = 9 then "\n" else "")
    else ""))

/-- The column width used by `Condition._format_data`: the widest printed
second entry over all rows (`max` starts at 0). -/
def prtCondMaxW (c : PrtCondition) : Nat :=
  c.data.foldl (fun mx row => max mx (toString (row.getD 1 0)).toList.length) 0

/-- One row of `Condition._format_data`: a leading space, entries
right-justified to the common width, two spaces between entries. -/
def prtFormatDataRow (m : Nat) (row : List Int) : String :=
  " " ++ pyJoin "  " (row.map (fun x => pyRjust m (toString x)))

/-- `Condition._format_data`. -/
def prtFormatData (c : PrtCondition) : String :=
  pyJoin "\n" (c.data.map (prtFormatDataRow (prtCondMaxW c)))

/-- `Condition._format_colour`. -/
def prtFormatColour (c : PrtCondition) : String :=
  "Color: " ++ pyJoin " " (c.colour.map toString)

/-- `Condition.__str__`: name, row count, data block, colour line. -/
def prtCondStr (c : PrtCondition) : String :=
  c.name ++ "\n" ++ toString c.data.length ++ "\n" ++ prtFormatData c ++ "\n" ++
    prtFormatColour c

/-- `StimulationProtocol._format_conditions`: blocks separated by a blank
line. -/
def prtFormatConditions (s : PrtState) : String :=
  pyJoin "\n\n" (s.conditions.map prtCondStr)

/-- `StimulationProtocol.save`: the text written to the file. -/
def prtSave (s : PrtState) : String :=
  "\n" ++ prtFormatHeader s ++ "\n" ++ "\n" ++ prtFormatConditions s

/-! ### prt parsing (load) -/

/-- One header line of `StimulationProtocol.load`: split at the first colon
(none at all is an `IndexError`), then type the value: several
space-separated tokens become an int list if every token parses, else the
tokens are re-joined into a string; a single token becomes an int if it
parses, else a string. -/
def parsePrtHeaderLine (h : Header) (line : String) : Except String Header :=
  match pySplitColon1 line with
  | [k, vs] =>
    let toks := pySplit (pyStrip vs) " "
    let v : PyVal :=
      if toks.length > 1 then
        match toks.mapM pyInt with
        | some is => .list is
        | none => .str (pyJoin " " toks)
      else
        match pyInt (toks.getD 0 "") with
        | some i => .int i
        | none => .str (toks.getD 0 "")
    .ok (headerSet h (pyStrip k) v)
  | _ => .error "IndexError"

/-- `int_or_float` restricted to integer tokens (see the header note on
floats): a non-integer token is a fatal parse error. -/
def intOrFloatTok (t : String) : Except String Int :=
  match pyInt t with
  | some i => Except.ok i
  | none => Except.error "ValueError"

/-- One condition data row: `[int_or_float(i) for i in lines[x].split(" ") if i]`. -/
def parsePrtDataRow (line : String) : Except String (List Int) :=
  ((pySplit line " ").filter (fun t => t != "")).mapM intOrFloatTok

/-- The colour line of a condition block:
`[int(x) for x in lines[end][7:].split(" ")]`. -/
def parsePrtColour (line : String) : Except String (List Int) :=
  (pySplit (pyDropStr line 7) " ").mapM (fun t =>
    match pyInt t with
    | some i => Except.ok i
    | none => Except.error "ValueError")

/-- Read the `count` declared data rows of a block, lines `x`, `x+1`, …:
`.ok none` is an `IndexError` (the input ended early — caught by the loop),
`.error` a fatal `ValueError` from a malformed token. -/
def readRowsAux (lines : List String) : Nat → Int → Except String (Option (List (List Int)))
  | 0, _ => .ok (some [])
  | k + 1, x =>
    match pyIndex lines x with
    | none => .ok none
    | some line =>
      match parsePrtDataRow line with
      | .error e => .error e
      | .ok row =>
        match readRowsAux lines k (x + 1) with
        | .error e => .error e
        | .ok none => .ok none
        | .ok (some rest) => .ok (some (row :: rest))

/-- The condition-block loop of `StimulationProtocol.load`: one iteration
per declared condition.  The whole block body sits in a
`try: … except IndexError: pass`, so a block that runs off the end of the
input is skipped; `counter` then advances by `number_events + 3`, using the
`number_events` of the previous iteration when this one never bound it
(unbound on the first iteration is Python's `NameError`). -/
def prtLoadLoop (lines : List String) :
    Nat → Int → Option Int → PrtState → Except String PrtState
  | 0, _, _, st => .ok st
  | n + 1, counter, prevNE, st =>
    match pyIndex lines counter with
    | none =>
      match prevNE with
      | none => .error "NameError"
      | some ne => prtLoadLoop lines n (counter + ne + 3) prevNE st
    | some nameLine =>
      let name := pyStrip nameLine
      match pyIndex lines (counter + 1) with
      | none =>
        match prevNE with
        | none => .error "NameError"
        | some ne => prtLoadLoop lines n (counter + ne + 3) prevNE st
      | some neLine =>
        match pyInt neLine with
        | none => .error "ValueError"
        | some ne =>
          let start := counter + 2
          match readRowsAux lines ne.toNat start with
          | .error e => .error e
          | .ok none => prtLoadLoop lines n (counter + ne + 3) (some ne) st
          | .ok (some rows) =>
            match pyIndex lines (start + ne) with
            | none => prtLoadLoop lines n (counter + ne + 3) (some ne) st
            | some colourLine =>
              match parsePrtColour colourLine with
              | .error e => .error e
              | .ok colour =>
                let cond : PrtCondition :=
                  { name := name, data := rows, colour := colour.take 3 }
                let (st2, e2) := prtAddCondition st cond
                match e2 with
                | none => prtLoadLoop lines n (counter + ne + 3) (some ne) st2
                | some "IndexError" => prtLoadLoop lines n (counter + ne + 3) (some ne) st2
                | some e3 => .error e3

/-- `StimulationProtocol.load` applied to file contents.  Unlike the other
formats it does NOT `clear()` first: the header keys read from the file are
assigned over the current header and every parsed condition is
`add_condition`-ed onto the current condition list. -/
def prtLoad (s : PrtState) (file : String) : Except String PrtState := do
  let lines0 := readLines file
  let lines1 := (collapseDup lines0).map (fun x => pyStrip (pyExpandTabs x))
  let lines := lines1.filter (fun l => pyStrip l != "")
  if lines.isEmpty then .error "NameError"
  else
    let counter := (lines.findIdx? (fun l => pyStarts l "NrOfConditions")).getD (lines.length - 1)
    let header ← (lines.take counter).foldlM parsePrtHeaderLine s.header
    let condsLine := (pyIndex lines (counter : Int)).getD ""
    match pySplitColon1 condsLine with
    | [_, v] =>
      match pyInt (pyStrip v) with
      | none => .error "ValueError"
      | some conds =>
        prtLoadLoop lines conds.toNat ((counter : Int) + 1) none { s with header := header }
    | _ => .error "IndexError"

deriving instance DecidableEq for Except

/-! ## mdm — multi-subject DesignMatrix (mdm/__init__.py) -/

structure Study where
  data_files : List String
  sdm_file : String
deriving DecidableEq, Repr

structure MdmState where
  header : Header
  studies : List Study
deriving DecidableEq, Repr

/-- `mdm.DesignMatrix.clear` (the state of a freshly constructed matrix). -/
def mdmClear : MdmState :=
  ⟨[("FileVersion", .int 3), ("TypeOfFunctionalData", .str "VTC"), ("RFX-GLM", .int 0),
    ("PSCTransformation", .int 1), ("zTransformation", .int 0),
    ("SeparatePredictors", .int 0), ("NrOfStudies", .int 0)], []⟩

/-- `self._header["NrOfStudies"] > 0`. -/
def mdmStudiesPos (s : MdmState) : Bool :=
  match headerGetInt s.header "NrOfStudies" with
  | some n => decide (0 < n)
  | none => false

/-- `self._header["NrOfStudies"] += 1` followed by the append. -/
def mdmFinishAdd (s : MdmState) (st : Study) : MdmState × Option String :=
  match headerGetInt s.header "NrOfStudies" with
  | some n =>
    ({ header := headerSet s.header "NrOfStudies" (.int (n + 1)),
       studies := s.studies ++ [st] }, none)
  | none => (s, some "TypeError")

/-- `mdm.DesignMatrix.add_study`. -/
def mdmAddStudy (s : MdmState) (st : Study) : MdmState × Option String :=
  if st.data_files.length > 1 then
    if mdmStudiesPos s && (headerGet s.header "TypeOfFunctionalData" == PyVal.str "VTC") then
      (s, some "Data is MTC, but design matrix contains VTC data!")
    else
      mdmFinishAdd { s with header := headerSet s.header "TypeOfFunctionalData" (.str "MTC") } st
  else
    if mdmStudiesPos s && (headerGet s.header "TypeOfFunctionalData" == PyVal.str "MTC") then
      (s, some "Data is VTC, but design matrix contains MTC data!")
    else
      mdmFinishAdd s st

/-- `mdm.DesignMatrix._format_header`: 22-column keys, newline after all but
the last entry, extra blank line after entries 1, 2 and 5. -/
def mdmFormatHeader (s : MdmState) : String :=
  let n := s.header.length
  String.join (s.header.enum.map (fun ci =>
    pyLjust 22 (ci.2.1 ++ ":") ++ pyValRender ci.2.2 ++
    (if ci.1 < n - 1 then "\n" else "") ++
    (if ci.1 = 1 ∨ ci.1 = 2 ∨ ci.1 = 5 then "\n" else "")))

/-- `mdm.DesignMatrix._format_studies`: quoted data files then the quoted
design file per line; note the source compares the index against
`len(self.header) - 1` (not the number of studies) when deciding on the
newline. -/
def mdmFormatStudies (s : MdmState) : String :=
  String.join (s.studies.enum.map (fun ci =>
    "\"" ++ pyJoin "\" \"" ci.2.data_files ++ "\" \"" ++ ci.2.sdm_file ++ "\"" ++
    (if ci.1 < s.header.length - 1 then "\n" else "")))

/-- `mdm.DesignMatrix.save`: the text written to the file. -/
def mdmSave (s : MdmState) : String :=
  "\n" ++ mdmFormatHeader s ++ "\n" ++ mdmFormatStudies s

/-- One header line of `mdm.DesignMatrix.load`: try `int(line[22:].strip())`,
fall back to the stripped string on `ValueError`. -/
def parseMdmHeaderLine (h : Header) (line : String) : Header :=
  if pyStrip line = "" then h
  else
    let k := pyStripChars [':', ' '] (pyTakeStr line 22)
    match pyInt (pyDropStr line 22) with
    | some v => headerSet h k (.int v)
    | none => headerSet h k (.str (pyStrip (pyDropStr line 22)))

/-- One study line of `mdm.DesignMatrix.load`: split at quotes, keep the
non-blank fields; three or more fields mean a two-file (MTC) study, otherwise
field 0 is the data file and field 1 the design file (fewer than two fields
raise `IndexError`). -/
def parseStudyLine (line : String) : Except String Study :=
  let tmp := (pySplit line "\"").filter (fun x => pyStrip x != "")
  if tmp.length > 2 then
    .ok { data_files := tmp.take 2, sdm_file := tmp.getD 2 "" }
  else
    match tmp with
    | t0 :: t1 :: _ => .ok { data_files := [t0], sdm_file := t1 }
    | _ => .error "IndexError"

/-- `mdm.DesignMatrix.load` applied to file contents: clears, then parses the
header from the lines strictly before `counter - 1` (one line short of the
first quoted line — which in this format is the `NrOfStudies` line, so that
key keeps its cleared value), then parses every remaining line as a study. -/
def mdmLoad (file : String) : Except String MdmState := do
  let s := mdmClear
  let lines := readLines file
  if lines.isEmpty then .error "NameError"
  else
    let counter := (lines.findIdx? (fun l => pyStarts l "\"")).getD (lines.length - 1)
    let header := (pySliceTo lines ((counter : Int) - 1)).foldl parseMdmHeaderLine s.header
    let studies ← (lines.drop counter).mapM parseStudyLine
    .ok { header := header, studies := studies }

/-! ## sdm — single-subject DesignMatrix (src/brainvoyagertools/sdm.py) -/

structure Predictor where
  name : String
  data : List Int
  colour : List Int
deriving DecidableEq, Repr

structure SdmState where
  header : IntHeader
  predictors : List Predictor
deriving DecidableEq, Repr

/-- `sdm.DesignMatrix.clear`. -/
def sdmClear : SdmState :=
  ⟨[("FileVersion", 1), ("NrOfPredictors", 0), ("NrOfDataPoints", 0),
    ("IncludesConstant", 0), ("FirstConfoundPredictor", 1)], []⟩

/-- `sdm.DesignMatrix.add_predictor`: reject a length mismatch with the
formatted `ValueError` message, otherwise insert at the computed position
(confounds before the trailing constant, others before the first confound)
and update the counters. -/
def sdmAddPredictor (s : SdmState) (p : Predictor) (isConfound : Bool) :
    SdmState × Option String :=
  if iheaderGet s.header "NrOfPredictors" > 0 ∧
     (p.data.length : Int) ≠ iheaderGet s.header "NrOfDataPoints" then
    (s, some ("Predictor has " ++ toString p.data.length ++
      " data points, but design matrix has " ++
      toString (iheaderGet s.header "NrOfDataPoints") ++ "!"))
  else
    let position : Int :=
      if isConfound then
        iheaderGet s.header "NrOfPredictors" - iheaderGet s.header "IncludesConstant"
      else iheaderGet s.header "FirstConfoundPredictor" - 1
    let preds := pyInsertAt s.predictors position p
    let h1 :=
      if iheaderGet s.header "NrOfPredictors" = 0 then
        iheaderSet s.header "NrOfDataPoints" (p.data.length : Int)
      else s.header
    let h2 := iheaderSet h1 "NrOfPredictors" (iheaderGet h1 "NrOfPredictors" + 1)
    let h3 :=
      if !isConfound then
        iheaderSet h2 "FirstConfoundPredictor" (iheaderGet h2 "FirstConfoundPredictor" + 1)
      else h2
    ({ header := h3, predictors := preds }, none)

/-- `sdm.DesignMatrix.data` — the same accessor as `ContrastsDefinition.data`. -/
def sdmData (s : SdmState) : Option (List (List Int)) :=
  npColumnStack (s.predictors.map (fun p => p.data))

/-! ## Concrete documents and files used by the theorems below -/

/-- A one-contrast document (two data points). -/
def ctrDoc1 : CtrState :=
  ⟨[("FileVersion", 1), ("NrOfContrasts", 1), ("NrOfValues", 2)],
   [⟨"C1", [1, -1]⟩]⟩

/-- A two-contrast document. -/
def ctrDoc2 : CtrState :=
  ⟨[("FileVersion", 1), ("NrOfContrasts", 2), ("NrOfValues", 2)],
   [⟨"C1", [1, 0]⟩, ⟨"C2", [-1, 1]⟩]⟩

def condBase : PrtCondition := ⟨"Base", [[1, 2], [5, 6]], [0, 0, 255]⟩

def condAct : PrtCondition := ⟨"Act", [[3, 4]], [255, 0, 0]⟩

/-- A single-condition protocol, built through `add_condition`. -/
def prtDoc1 : PrtState := (prtAddCondition prtClear condAct).1

/-- A two-condition protocol with colours. -/
def prtDoc2 : PrtState := (prtAddCondition (prtAddCondition prtClear condBase).1 condAct).1

/-- A protocol with a parametric (3-column) condition: `FileVersion` 3,
`ParametricWeights` 1, the first condition retrofitted. -/
def prtDocP : PrtState :=
  (prtAddCondition (prtAddCondition prtClear condBase).1 ⟨"Mod", [[3, 4, 2]], [255, 0, 0]⟩).1

/-- A single-study (VTC) multi-subject design matrix. -/
def mdmDoc1 : MdmState := (mdmAddStudy mdmClear ⟨["sub1.vtc"], "sub1.sdm"⟩).1

/-- `save(load(f)) == f` for a ctr state: save it, load the bytes into a
fresh document (`load` clears first), save again and compare bytes. -/
def ctrRoundTrip (d : CtrState) : Bool :=
  match ctrSave d with
  | none => false
  | some f =>
    match ctrLoad f with
    | .error _ => false
    | .ok d2 => ctrSave d2 == some f

/-- `save(load(f)) == f` for a prt state: the file is loaded into a freshly
constructed protocol (the state `prtClear`, which is what
`StimulationProtocol()` yields). -/
def prtRoundTrip (d : PrtState) : Bool :=
  match prtLoad prtClear (prtSave d) with
  | .error _ => false
  | .ok d2 => prtSave d2 == prtSave d

/-- A protocol already holding a condition `A` — the prior state for the
load-merge experiment of claim C2. -/
def staleA : PrtState := (prtAddCondition prtClear ⟨"A", [[1, 2]], [1, 2, 3]⟩).1

/-- A saved single-condition (`B`) protocol file. -/
def fileB : String := prtSave (prtAddCondition prtClear ⟨"B", [[3, 4]], [9, 9, 9]⟩).1

/-- A prt file whose single condition declares 2 data rows but is truncated
after the first row (the input ends before the declared count). -/
def truncFile : String := "NrOfConditions: 1\nA\n2\n1 3\n"

/-- A prt file whose single condition has all its declared rows but is
truncated before the colour line. -/
def truncFile2 : String := "NrOfConditions: 1\nC\n1\n5 8\n"

/-- A complete two-condition prt body: block `A` declares exactly 2 rows,
block `B` follows immediately with 1 row. -/
def fullFile : String := "NrOfConditions: 2\nA\n2\n1 3\n4 6\nColor: 1 2 3\nB\n1\n7 9\nColor: 4 5 6\n"

/-- The two conditions of claim C9's counterexample: overlapping intervals
with parametric weights. -/
def condP : PrtCondition := ⟨"A", [[1, 2, 5]], [10, 10, 10]⟩

def condQ : PrtCondition := ⟨"B", [[3, 4, 2]], [20, 20, 20]⟩

/-- A 3-column condition added to `prtDoc2` in claim C4's witness. -/
def condW : PrtCondition := ⟨"W", [[7, 8, 5]], [1, 1, 1]⟩

/-- A protocol already converted to milliseconds. -/
def prtDocMsec : PrtState := prtConvertToMsec prtDoc2 2

/-! ## Helper lemmas -/

theorem assocGet_set_self {β : Type} (dflt : β) (h : List (String × β)) (k : String) (v : β) :
    assocGet dflt (assocSet h k v) k = v := by
  induction h with
  | nil => simp [assocSet, assocGet]
  | cons kv t ih =>
    by_cases hk : kv.1 == k
    · simp [assocSet, hk, assocGet]
    · simp [assocSet, hk, assocGet, ih]

theorem assocGet_set_ne {β : Type} (dflt : β) (h : List (String × β)) (k k2 : String) (v : β)
    (hne : (k == k2) = false) : assocGet dflt (assocSet h k v) k2 = assocGet dflt h k2 := by
  induction h with
  | nil => simp [assocSet, assocGet, hne]
  | cons kv t ih =>
    by_cases hk : kv.1 == k
    · have hkv2 : (kv.1 == k2) = false := by
        have h1 : kv.1 = k := by simpa using hk
        simpa [h1] using hne
      simp [assocSet, hk, assocGet, hkv2, hne]
    · simp [assocSet, hk, assocGet, ih]

theorem headerGet_set_self (h : Header) (k : String) (v : PyVal) :
    headerGet (headerSet h k v) k = v := assocGet_set_self _ h k v

theorem headerGet_set_ne (h : Header) (k k2 : String) (v : PyVal) (hne : (k == k2) = false) :
    headerGet (headerSet h k v) k2 = headerGet h k2 := assocGet_set_ne _ h k k2 v hne

theorem headerGetInt_set_ne (h : Header) (k k2 : String) (v : PyVal) (hne : (k == k2) = false) :
    headerGetInt (headerSet h k v) k2 = headerGetInt h k2 := by
  simp [headerGetInt, headerGet_set_ne h k k2 v hne]

/-! ## Claim C1 — round-trip -/

/-- **C1** (amended).  `save(load(f))` reproduces the canonical bytes `f`
byte-for-byte when `f` was produced by `save` from a document with at least
one record — verified here for representative ctr documents (one and two
contrasts) and prt documents (one condition, two conditions with colours, a
parametric three-column document), and additionally for the *empty* prt
document.  (The unamended claim also demanded this for empty documents of
every format; see the counterexample: for mdm the round trip fails even on a
single-record document, and ctr cannot save an empty document at all since
its `data` accessor raises.) -/
theorem c1_roundtrip_representatives :
    ctrRoundTrip ctrDoc1 = true ∧ ctrRoundTrip ctrDoc2 = true ∧
    prtRoundTrip prtClear = true ∧ prtRoundTrip prtDoc1 = true ∧
    prtRoundTrip prtDoc2 = true ∧ prtRoundTrip prtDocP = true := by decide

/-- **C1** (counterexample).  The round trip is not the identity for the mdm
format: `save` of a single-study document followed by `load` and `save` does
not reproduce the bytes (the loader's `lines[:counter-1]` slice skips the
`NrOfStudies` line, which in this format sits directly above the first
quoted study line, so the saved `NrOfStudies: 1` comes back as `0`); and
`load` of a saved *empty* mdm document raises `IndexError` outright (the
header line reached by the fallback sentinel search is parsed as a study). -/
theorem c1_counterexample_mdm :
    (mdmLoad (mdmSave mdmDoc1)).map mdmSave ≠ Except.ok (mdmSave mdmDoc1) ∧
    mdmLoad (mdmSave mdmClear) = Except.error "IndexError" := by decide

/-! ## Claim C2 — load replaces state -/

/-- **C2** (code bug).  `StimulationProtocol.load`'s docstring promises
"This will overwrite current header and conditions!", and the claim says a
load never merges with prior state — but the method, unlike the ctr/mdm/voi
loaders, never calls `clear()`: loading a one-condition file (`B`) into a
protocol that already holds condition `A` leaves BOTH conditions in the body
and `NrOfConditions = 2`, an observable mixture of old and new state. -/
theorem c2_prt_load_merges :
    (prtLoad staleA fileB).map
      (fun s => (s.conditions.map (fun c => c.name), headerGet s.header "NrOfConditions")) =
      Except.ok (["A", "B"], PyVal.int 2) := by decide

/-! ## Claim C3 — invariant violations on add -/

/-- **C3** (confirmed).  An `add` that violates the cross-record invariant
raises the validation `ValueError` synchronously and leaves the document
unchanged (the returned state is exactly the input state — in each of the
three sources the `raise` precedes every mutation):
a contrast whose data length differs from `NrOfValues` (fixed by the first
contrast added), a predictor whose data length differs from
`NrOfDataPoints`, and a study whose functional-data cardinality (two files
vs one) conflicts with the `TypeOfFunctionalData` recorded for the studies
already present. -/
theorem c3_add_invariant_violations :
    (∀ (s : CtrState) (c : Contrast),
      iheaderGet s.header "NrOfContrasts" ≠ 0 →
      iheaderGet s.header "NrOfValues" ≠ (c.data.length : Int) →
      ∃ e, ctrAddContrast s c = (s, some e)) ∧
    (∀ (s : SdmState) (p : Predictor) (b : Bool),
      iheaderGet s.header "NrOfPredictors" > 0 →
      (p.data.length : Int) ≠ iheaderGet s.header "NrOfDataPoints" →
      ∃ e, sdmAddPredictor s p b = (s, some e)) ∧
    (∀ (s : MdmState) (st : Study),
      mdmStudiesPos s = true →
      headerGet s.header "TypeOfFunctionalData" = PyVal.str "VTC" →
      st.data_files.length > 1 →
      mdmAddStudy s st = (s, some "Data is MTC, but design matrix contains VTC data!")) ∧
    (∀ (s : MdmState) (st : Study),
      mdmStudiesPos s = true →
      headerGet s.header "TypeOfFunctionalData" = PyVal.str "MTC" →
      ¬ st.data_files.length > 1 →
      mdmAddStudy s st = (s, some "Data is VTC, but design matrix contains MTC data!")) := by
  refine ⟨?_, ?_, ?_, ?_⟩
  · intro s c h1 h2
    refine ⟨"Contrast has " ++ toString c.data.length ++
      " data points, but contrasts definition has " ++
      toString (iheaderGet s.header "NrOfValues") ++ "!", ?_⟩
    simp only [ctrAddContrast, if_neg h1, if_pos h2]
  · intro s p b h1 h2
    refine ⟨"Predictor has " ++ toString p.data.length ++
      " data points, but design matrix has " ++
      toString (iheaderGet s.header "NrOfDataPoints") ++ "!", ?_⟩
    simp only [sdmAddPredictor, if_pos (And.intro h1 h2)]
  · intro s st h1 h2 h3
    simp only [mdmAddStudy, if_pos h3, h1, h2, beq_self_eq_true, Bool.true_and, if_pos rfl]
    simp
  · intro s st h1 h2 h3
    simp only [mdmAddStudy, if_neg h3, h1, h2, beq_self_eq_true, Bool.true_and]
    simp

/-- Witness for C3: concrete violating `add` calls on each format. -/
theorem c3_witness :
    (∃ e, ctrAddContrast ctrDoc1 ⟨"C2", [1, 2, 3]⟩ = (ctrDoc1, some e)) ∧
    (∃ e, sdmAddPredictor
        ⟨[("FileVersion", 1), ("NrOfPredictors", 1), ("NrOfDataPoints", 4),
          ("IncludesConstant", 0), ("FirstConfoundPredictor", 2)],
         [⟨"P1", [0, 1, 0, 1], [255, 0, 0]⟩]⟩ ⟨"P2", [1, 1], [0, 255, 0]⟩ false =
        (⟨[("FileVersion", 1), ("NrOfPredictors", 1), ("NrOfDataPoints", 4),
          ("IncludesConstant", 0), ("FirstConfoundPredictor", 2)],
         [⟨"P1", [0, 1, 0, 1], [255, 0, 0]⟩]⟩, some e)) ∧
    mdmAddStudy mdmDoc1 ⟨["sub2.ssm", "sub2.mtc"], "sub2.sdm"⟩ =
      (mdmDoc1, some "Data is MTC, but design matrix contains VTC data!") :=
  ⟨c3_add_invariant_violations.1 ctrDoc1 ⟨"C2", [1, 2, 3]⟩ (by decide) (by decide),
   c3_add_invariant_violations.2.1 _ ⟨"P2", [1, 1], [0, 255, 0]⟩ false (by decide) (by decide),
   c3_add_invariant_violations.2.2.1 mdmDoc1 ⟨["sub2.ssm", "sub2.mtc"], "sub2.sdm"⟩
     (by decide) (by decide) (by decide)⟩

/-! ## Claim C4 — column retrofit -/

/-- Appending a unit column raises the rectangular width by one. -/
theorem rectWidth_padOnes (d : List (List Int)) (w : Nat) (h : rectWidth d = some w) :
    rectWidth (padOnes d) = some (w + 1) := by
  cases d with
  | nil => simp [rectWidth] at h
  | cons r rs =>
    simp only [rectWidth] at h
    split at h
    case isTrue hall =>
      injection h with hw
      have hall2 : ((rs.map (fun q => q ++ [1])).all
          (fun x => x.length == (r ++ [1]).length)) = true := by
        simp only [List.all_map, List.all_eq_true] at hall ⊢
        intro x hx
        have hx2 := hall x hx
        simp only [beq_iff_eq] at hx2
        simp [hx2]
      simp only [padOnes, List.map_cons, rectWidth, hall2, if_true]
      simp [← hw]
    case isFalse => exact absurd h (by simp)

/-- When every existing condition is 2-column, the retrofit loop succeeds and
gives each of them the unit third column. -/
theorem retrofit_all_two (l : List PrtCondition)
    (hall : ∀ x ∈ l, rectWidth x.data = some 2) :
    retrofitConditions l = (l.map (fun x => { x with data := padOnes x.data }), none) := by
  induction l with
  | nil => rfl
  | cons c t ih =>
    have hc := hall c (List.mem_cons_self c t)
    have ht := fun x hx => hall x (List.mem_cons_of_mem c hx)
    simp [retrofitConditions, hc, ih ht]

/-- **C4** (confirmed).  Adding a 3-column condition to a protocol whose
existing conditions are all 2-column: every existing condition gains a unit
third column, `FileVersion` becomes 3 and `ParametricWeights` 1, the new
condition is appended unchanged, the condition counter advances — and
afterwards every condition in the protocol has exactly 3 columns. -/
theorem c4_column_retrofit (s : PrtState) (c : PrtCondition) (n : Int)
    (hall : ∀ x ∈ s.conditions, rectWidth x.data = some 2)
    (hc : rectWidth c.data = some 3)
    (hn : headerGetInt s.header "NrOfConditions" = some n) :
    prtAddCondition s c =
      ({ header := headerSet (headerSet (headerSet s.header "FileVersion" (.int 3))
            "ParametricWeights" (.int 1)) "NrOfConditions" (.int (n + 1)),
         conditions := s.conditions.map (fun x => { x with data := padOnes x.data }) ++ [c] },
       none) ∧
    ∀ x ∈ (prtAddCondition s c).1.conditions, rectWidth x.data = some 3 := by
  have hretro := retrofit_all_two s.conditions hall
  have hfin : headerGetInt (headerSet (headerSet s.header "FileVersion" (PyVal.int 3))
      "ParametricWeights" (PyVal.int 1)) "NrOfConditions" = some n := by
    rw [headerGetInt_set_ne _ _ _ _ (by decide), headerGetInt_set_ne _ _ _ _ (by decide), hn]
  have hmain : prtAddCondition s c =
      ({ header := headerSet (headerSet (headerSet s.header "FileVersion" (.int 3))
            "ParametricWeights" (.int 1)) "NrOfConditions" (.int (n + 1)),
         conditions := s.conditions.map (fun x => { x with data := padOnes x.data }) ++ [c] },
       none) := by
    simp [prtAddCondition, hc, hretro, prtFinishAdd, hfin]
  refine ⟨hmain, ?_⟩
  rw [hmain]
  intro x hx
  simp only [List.mem_append, List.mem_map, List.mem_singleton] at hx
  rcases hx with ⟨y, hy, rfl⟩ | rfl
  · exact rectWidth_padOnes y.data 2 (hall y hy)
  · exact hc

/-- Witness for C4: adding the 3-column condition `condW` to the 2-column
two-condition protocol `prtDoc2`. -/
theorem c4_witness :
    prtAddCondition prtDoc2 condW =
      ({ header := headerSet (headerSet (headerSet prtDoc2.header "FileVersion" (.int 3))
            "ParametricWeights" (.int 1)) "NrOfConditions" (.int (2 + 1)),
         conditions := prtDoc2.conditions.map (fun x => { x with data := padOnes x.data }) ++
           [condW] }, none) ∧
    ∀ x ∈ (prtAddCondition prtDoc2 condW).1.conditions, rectWidth x.data = some 3 :=
  c4_column_retrofit prtDoc2 condW 2 (by decide) (by decide) (by decide)

/-! ## Claim C5 — add appends and counts -/

/-- **C5** (code bug).  The claim says a successful `add` puts the record
into the body and then bumps the counter so that counter = number of body
records.  `ContrastsDefinition.add_contrast` violates this: adding a first
contrast to a fresh document succeeds (no error), sets `NrOfContrasts` to 1
and `NrOfValues` to the contrast's length — but the contrasts list stays
empty, because the method never appends to `self._contrasts`.  (The mdm and
prt `add` methods do append; the evaluation of a prt add is included for
contrast.) -/
theorem c5_ctr_add_never_appends :
    (ctrAddContrast ctrClear ⟨"C1", [1, -1]⟩).2 = none ∧
    iheaderGet (ctrAddContrast ctrClear ⟨"C1", [1, -1]⟩).1.header "NrOfContrasts" = 1 ∧
    (ctrAddContrast ctrClear ⟨"C1", [1, -1]⟩).1.contrasts = [] ∧
    ((ctrAddContrast ctrClear ⟨"C1", [1, -1]⟩).1.contrasts.length : Int) ≠ 1 ∧
    (prtAddCondition prtClear condAct).2 = none ∧
    headerGetInt (prtAddCondition prtClear condAct).1.header "NrOfConditions" =
      some ((prtAddCondition prtClear condAct).1.conditions.length : Int) := by decide

/-! ## Claim C6 — declared row counts and truncated blocks -/

/-- **C6** (counterexample).  A prt body whose single condition declares 2
rows but ends after the first row does NOT make `load` fail: the block's
`IndexError` is caught by the loop's `except IndexError: pass`, the
condition is silently skipped, and the load returns the protocol unchanged
(no condition added, no error). -/
theorem c6_counterexample_truncated_block_skipped :
    prtLoad prtClear truncFile = Except.ok prtClear := by decide

/-- **C6** (amended).  Parsing a complete condition block consumes exactly
the declared number of data rows — in `fullFile` block `A` declares 2 rows
and gets exactly `[[1,3],[4,6]]`, after which block `B` is found at the
advanced offset and parsed correctly — but a block truncated before its
declared count (or before its colour line) is silently skipped rather than
failing: the load succeeds and simply yields no record for that block. -/
theorem c6_amended_exact_consumption_and_silent_skip :
    (prtLoad prtClear fullFile).map (fun s => s.conditions) =
      Except.ok [⟨"A", [[1, 3], [4, 6]], [1, 2, 3]⟩, ⟨"B", [[7, 9]], [4, 5, 6]⟩] ∧
    prtLoad prtClear truncFile2 = Except.ok prtClear := by decide

/-! ## Claim C7 — convert_to_msec -/

/-- **C7** (confirmed).  If the protocol is already in `msec`,
`convert_to_msec` changes nothing; otherwise it maps every interval's onset
to `(onset - 1) * tr` and offset to `offset * tr` (further row entries
untouched) and sets the time-unit flag to `msec`; consequently applying it
twice equals applying it once. -/
theorem c7_convert_to_msec (s : PrtState) (tr : Int) :
    (headerGet s.header "ResolutionOfTime" = PyVal.str "msec" →
      prtConvertToMsec s tr = s) ∧
    (headerGet s.header "ResolutionOfTime" ≠ PyVal.str "msec" →
      prtConvertToMsec s tr =
        { header := headerSet s.header "ResolutionOfTime" (.str "msec"),
          conditions := s.conditions.map
            (fun c => { c with data := c.data.map (convRow tr) }) }) ∧
    prtConvertToMsec (prtConvertToMsec s tr) tr = prtConvertToMsec s tr := by
  refine ⟨?_, ?_, ?_⟩
  · intro h
    simp [prtConvertToMsec, h]
  · intro h
    simp [prtConvertToMsec, h]
  · by_cases h : headerGet s.header "ResolutionOfTime" = PyVal.str "msec"
    · simp [prtConvertToMsec, h]
    · have h1 : prtConvertToMsec s tr =
          { header := headerSet s.header "ResolutionOfTime" (.str "msec"),
            conditions := s.conditions.map
              (fun c => { c with data := c.data.map (convRow tr) }) } := by
        simp [prtConvertToMsec, h]
      rw [h1]
      have h2 : headerGet (headerSet s.header "ResolutionOfTime" (PyVal.str "msec"))
          "ResolutionOfTime" = PyVal.str "msec" := headerGet_set_self _ _ _
      simp [prtConvertToMsec, h2]

/-- Witness for C7: idempotence on the concrete volume-mode protocol
`prtDoc2`, and the no-op on the already-converted `prtDocMsec`. -/
theorem c7_witness :
    prtConvertToMsec (prtConvertToMsec prtDoc2 2) 2 = prtConvertToMsec prtDoc2 2 ∧
    prtConvertToMsec prtDocMsec 2 = prtDocMsec :=
  ⟨(c7_convert_to_msec prtDoc2 2).2.2,
   (c7_convert_to_msec prtDocMsec 2).1 (by decide)⟩

/-! ## Claim C8 — derived duration views and event ordering -/

/-- **C8** (confirmed).  The flattened event list is sorted ascending by
onset across all conditions (and is a permutation of the flattened rows);
event and per-condition durations are `offset - onset` in msec mode and
`offset - onset + 1` in volume mode. -/
theorem c8_durations_and_sorted_events (s : PrtState) :
    List.Sorted evLE (prtEventList s) ∧
    (prtEventList s).Perm (prtEvents s) ∧
    (prtIsMsec s = true →
      prtEventDurations s = (prtEventList s).map (fun e => e.2.getD 1 0 - e.2.getD 0 0) ∧
      prtConditionDurations s =
        s.conditions.map (fun c => c.data.map (fun r => r.getD 1 0 - r.getD 0 0))) ∧
    (headerGet s.header "ResolutionOfTime" = PyVal.str "Volumes" →
      prtEventDurations s =
        (prtEventList s).map (fun e => e.2.getD 1 0 - e.2.getD 0 0 + 1) ∧
      prtConditionDurations s =
        s.conditions.map (fun c => c.data.map (fun r => r.getD 1 0 - r.getD 0 0 + 1))) := by
  refine ⟨List.sorted_insertionSort evLE _, List.perm_insertionSort evLE _, ?_, ?_⟩
  · intro h
    exact ⟨by simp [prtEventDurations, h], by simp [prtConditionDurations, h]⟩
  · intro h
    have hm : prtIsMsec s = false := by
      simp only [prtIsMsec, h]
      decide
    exact ⟨by simp [prtEventDurations, hm], by simp [prtConditionDurations, hm]⟩

/-- Witness for C8: the volume-mode protocol `prtDoc2` and its msec
conversion `prtDocMsec`. -/
theorem c8_witness :
    List.Sorted evLE (prtEventList prtDoc2) ∧
    prtEventDurations prtDoc2 =
      (prtEventList prtDoc2).map (fun e => e.2.getD 1 0 - e.2.getD 0 0 + 1) ∧
    prtEventDurations prtDocMsec =
      (prtEventList prtDocMsec).map (fun e => e.2.getD 1 0 - e.2.getD 0 0) :=
  ⟨(c8_durations_and_sorted_events prtDoc2).1,
   ((c8_durations_and_sorted_events prtDoc2).2.2.2 (by decide)).1,
   ((c8_durations_and_sorted_events prtDocMsec).2.2.1 (by decide)).1⟩

/-! ## Claim C9 — combining conditions -/

/-- **C9** (counterexample).  `Condition.__add__` does NOT keep rows intact:
`np.sort(..., axis=0)` sorts every column independently.  Combining
`A = [[1,2,5]]` with `B = [[3,4,2]]` yields rows `[[1,2,2],[3,4,5]]` — the
weights 5 and 2 have been detached from their intervals — which differs from
the row-wise union sorted by onset, `[[1,2,5],[3,4,2]]`. -/
theorem c9_counterexample_columns_scrambled :
    prtCondAdd condP condQ = ⟨"A+B", [[1, 2, 2], [3, 4, 5]], [30, 30, 30]⟩ ∧
    (prtCondAdd condP condQ).data ≠ specRowSortByOnset (condP.data ++ condQ.data) := by decide

/-- **C9** (amended).  Combining two conditions yields the concatenated name
`a+b` and the component-wise colour sum clamped at 255, but the data is the
column-wise independent sort of the stacked rows (`np.sort(..., axis=0)`),
not the row-wise union sorted by onset: each column of the result is a
sorted permutation of the corresponding stacked input column. -/
theorem c9_combine_amended (a b : PrtCondition) :
    (prtCondAdd a b).name = a.name ++ "+" ++ b.name ∧
    (prtCondAdd a b).colour =
      [min (a.colour.getD 0 0 + b.colour.getD 0 0) 255,
       min (a.colour.getD 1 0 + b.colour.getD 1 0) 255,
       min (a.colour.getD 2 0 + b.colour.getD 2 0) 255] ∧
    (prtCondAdd a b).data = (colsSorted (a.data ++ b.data)).transpose ∧
    List.Forall₂ (fun col scol => scol.Perm col ∧ List.Sorted (· ≤ ·) scol)
      ((a.data ++ b.data).transpose) (colsSorted (a.data ++ b.data)) := by
  refine ⟨rfl, rfl, rfl, ?_⟩
  rw [colsSorted, List.forall₂_map_right_iff, List.forall₂_same]
  intro x _
  exact ⟨List.perm_insertionSort _ x, List.sorted_insertionSort _ x⟩

/-! ## Claim C10 — the data accessor -/

/-- `getD` of the column-append `zipWith`. -/
theorem zipAppend_getD (M : List (List Int)) (x : List Int) (i : Nat)
    (hi : i < M.length) (hx : M.length = x.length) :
    (M.zipWith (fun row v => row ++ [v]) x).getD i [] = M.getD i [] ++ [x.getD i 0] := by
  induction M generalizing x i with
  | nil => simp at hi
  | cons r M ih =>
    cases x with
    | nil => simp at hx
    | cons v x =>
      cases i with
      | zero => simp
      | succ j =>
        simp only [List.zipWith_cons_cons, List.getD_cons_succ]
        exact ih x j (Nat.lt_of_succ_lt_succ hi) (by simpa using hx)

/-- `getD` of the initial single-column matrix. -/
theorem colOf_getD (r : List Int) (i : Nat) (hi : i < r.length) :
    (colOf r).getD i [] = [r.getD i 0] := by
  induction r generalizing i with
  | nil => simp at hi
  | cons v r ih =>
    cases i with
    | zero => simp [colOf]
    | succ j =>
      simp only [colOf, List.map_cons, List.getD_cons_succ]
      exact ih j (Nat.lt_of_succ_lt_succ hi)

/-- The column-append fold of the `data` accessor: starting from a matrix
`M`, folding records of matching length appends one column per record. -/
theorem npStack_fold (xs : List (List Int)) :
    ∀ M : List (List Int), (∀ x ∈ xs, x.length = M.length) →
    ∃ M2, xs.foldl (fun acc x => acc.bind (fun m => hstackCol m x)) (some M) = some M2 ∧
      M2.length = M.length ∧
      ∀ i, i < M.length → M2.getD i [] = M.getD i [] ++ xs.map (fun r => r.getD i 0) := by
  induction xs with
  | nil =>
    intro M _
    exact ⟨M, rfl, rfl, fun i _ => by simp⟩
  | cons x xs ih =>
    intro M hall
    have hx : x.length = M.length := hall x (List.mem_cons_self x xs)
    have hstack : hstackCol M x = some (M.zipWith (fun row v => row ++ [v]) x) := by
      simp [hstackCol, hx]
    have hlen1 : (M.zipWith (fun row v => row ++ [v]) x).length = M.length := by
      simp [List.length_zipWith, hx]
    obtain ⟨M2, hfold, hlen2, hget⟩ := ih (M.zipWith (fun row v => row ++ [v]) x)
      (fun y hy => (hall y (List.mem_cons_of_mem x hy)).trans hlen1.symm)
    refine ⟨M2, ?_, hlen2.trans hlen1, ?_⟩
    · simpa [hstack] using hfold
    · intro i hi
      rw [hget i (by rw [hlen1]; exact hi), zipAppend_getD M x i hi hx.symm]
      simp

/-- **C10** (confirmed).  The `data` accessor shared by `ContrastsDefinition`
and the single-subject `DesignMatrix` fails (Python: `UnboundLocalError`)
on a document with zero records rather than returning an empty matrix; on a
document with at least one record (all records of data length `n`) it
returns an `n`-row matrix whose row `i` lists entry `i` of every record —
one column per record, in stored order. -/
theorem c10_data_accessor :
    (∀ s : CtrState, s.contrasts = [] → ctrData s = none) ∧
    (∀ s : SdmState, s.predictors = [] → sdmData s = none) ∧
    (∀ (rs : List (List Int)) (n : Nat), rs ≠ [] → (∀ r ∈ rs, r.length = n) →
      ∃ M, npColumnStack rs = some M ∧ M.length = n ∧
        ∀ i, i < n → M.getD i [] = rs.map (fun r => r.getD i 0)) := by
  refine ⟨?_, ?_, ?_⟩
  · intro s h
    simp [ctrData, h, npColumnStack]
  · intro s h
    simp [sdmData, h, npColumnStack]
  · intro rs n hne hall
    cases rs with
    | nil => exact absurd rfl hne
    | cons r xs =>
      have hr : r.length = n := hall r (List.mem_cons_self r xs)
      have hcol : (colOf r).length = n := by simp [colOf, hr]
      obtain ⟨M2, hfold, hlen, hget⟩ := npStack_fold xs (colOf r)
        (fun y hy => (hall y (List.mem_cons_of_mem r hy)).trans hcol.symm)
      refine ⟨M2, hfold, hlen.trans hcol, ?_⟩
      intro i hi
      rw [hget i (by rw [hcol]; exact hi), colOf_getD r i (by rw [hr]; exact hi)]
      simp

/-- Witness for C10: the empty ctr document fails, and the two-record
matrix `[[1,2],[3,4]]` stacks into a 2×2 matrix. -/
theorem c10_witness :
    ctrData ⟨ctrClear.header, []⟩ = none ∧
    ∃ M, npColumnStack [[1, 2], [3, 4]] = some M ∧ M.length = 2 ∧
      ∀ i, i < 2 → M.getD i [] = [[1, 2], [3, 4]].map (fun r => r.getD i 0) :=
  ⟨c10_data_accessor.1 _ rfl,
   c10_data_accessor.2.2 [[1, 2], [3, 4]] 2 (by decide) (by decide)⟩
